import Mathlib

/-!
Verification of the CRM Dashboard view (src/src/components/pages/Dashboard.jsx).

The component keeps five pieces of state (stats, recentActivities, alerts,
isLoading, error), loads data from five service collaborators with an
all-or-nothing join, and exposes two user actions (dismiss alert, complete
task).  We embed the state and the three operations as pure Lean functions:
the join of the five reads is a value of type `Except LoadError FetchResults`
(the first rejection short-circuits `Promise.all`), and each action takes the
outcome of its single service call as an `Except Unit Unit`.
-/

namespace Dashboard

/-- A contact record; the dashboard only uses the collection length. -/
structure Contact where
  Id : Int
deriving DecidableEq

/-- A deal with a monetary value and a pipeline stage. -/
structure Deal where
  value : Int
  stage : String
deriving DecidableEq

/-- A task with a boolean completion flag. -/
structure Task where
  Id : Int
  completed : Bool
deriving DecidableEq

/-- An activity; `timestamp` is the millisecond value of its ISO datetime. -/
structure Activity where
  Id : Int
  timestamp : Int
deriving DecidableEq

/-- An alert with an identifier, a type tag and an optional linked task. -/
structure Alert where
  Id : Int
  type : String
  taskId : Option Int
deriving DecidableEq

/-- The four aggregate statistics shown in the stat cards. -/
structure Stats where
  totalContacts : Nat
  totalDeals : Nat
  pipelineValue : Int
  completedTasks : Nat
deriving DecidableEq

/-- The view state of the Dashboard component (lines 19-28 of the source). -/
structure DashState where
  stats : Stats
  recentActivities : List Activity
  alerts : List Alert
  isLoading : Bool
  error : String
deriving DecidableEq

/-- The initial state from the useState initializers: zeroed stats, empty
lists, `isLoading = true`, empty error string. -/
def initialState : DashState :=
  { stats := { totalContacts := 0, totalDeals := 0, pipelineValue := 0, completedTasks := 0 },
    recentActivities := [],
    alerts := [],
    isLoading := true,
    error := "" }

/-- The five collaborators read by the loader. -/
inductive Service where
  | contacts
  | deals
  | tasks
  | activities
  | alerts
deriving DecidableEq

/-- A rejection of the `Promise.all` join, carrying which read failed. -/
structure LoadError where
  source : Service
deriving DecidableEq

/-- The tuple destructured from `Promise.all` on the success path (line 38). -/
structure FetchResults where
  contacts : List Contact
  deals : List Deal
  tasks : List Task
  activities : List Activity
  alertsData : List Alert
deriving DecidableEq

/-- The array of reads issued by the loader (lines 38-44). -/
def dashboardReads : List Service :=
  [Service.contacts, Service.deals, Service.tasks, Service.activities, Service.alerts]

/-- Line 47: `deals.filter(deal => !["Won", "Lost"].includes(deal.stage))`. -/
def activeDeals (deals : List Deal) : List Deal :=
  deals.filter (fun deal => !(["Won", "Lost"].contains deal.stage))

/-- Line 48: `activeDeals.reduce((sum, deal) => sum + deal.value, 0)`. -/
def pipelineValue (deals : List Deal) : Int :=
  (activeDeals deals).foldl (fun sum deal => sum + deal.value) 0

/-- Line 49: `tasks.filter(task => task.completed).length`. -/
def completedTasks (tasks : List Task) : Nat :=
  (tasks.filter (fun task => task.completed)).length

/-- The comparator of line 60 orders by descending timestamp: `a` may come
before `b` exactly when `b.timestamp ≤ a.timestamp`. -/
def activityGE (a b : Activity) : Prop :=
  b.timestamp ≤ a.timestamp

instance : DecidableRel activityGE :=
  fun a b => Int.decLe b.timestamp a.timestamp

instance : IsTotal Activity activityGE :=
  ⟨fun a b => le_total b.timestamp a.timestamp⟩

instance : IsTrans Activity activityGE :=
  ⟨fun _ _ _ hab hbc => le_trans hbc hab⟩

/-- Lines 59-61: sort activities by descending timestamp and keep the first
ten (`.sort((a, b) => new Date(b.timestamp) - new Date(a.timestamp)).slice(0, 10)`). -/
def sortedActivities (activities : List Activity) : List Activity :=
  (List.insertionSort activityGE activities).take 10

/-- Lines 34-35: the loader first sets the loading flag and clears the error. -/
def loadStart (s : DashState) : DashState :=
  { s with isLoading := true, error := "" }

/-- Lines 37-70: the try/catch/finally body applied to the awaited join.  On
success all stats, the recent activities and the alerts are set; on any
rejection only the generic error message is set.  The finally clause clears
the loading flag on both paths. -/
def loadSettle (s : DashState) (res : Except LoadError FetchResults) : DashState :=
  match res with
  | Except.ok r =>
      { s with
        stats :=
          { totalContacts := r.contacts.length,
            totalDeals := (activeDeals r.deals).length,
            pipelineValue := pipelineValue r.deals,
            completedTasks := completedTasks r.tasks },
        recentActivities := sortedActivities r.activities,
        alerts := r.alertsData,
        isLoading := false }
  | Except.error _ =>
      { s with error := "Failed to load dashboard data", isLoading := false }

/-- Lines 33-71: the whole `loadDashboardData` function. -/
def loadDashboardData (s : DashState) (res : Except LoadError FetchResults) : DashState :=
  loadSettle (loadStart s) res

/-- Line 107: the error view's retry prop is the loader itself
(`onRetry={loadDashboardData}`). -/
def onRetry : DashState → Except LoadError FetchResults → DashState :=
  loadDashboardData

/-- A transient user-visible notification (react-toastify call). -/
inductive Toast where
  | success (msg : String)
  | error (msg : String)
deriving DecidableEq

/-- The observable outcome of a user action: the new view state, how many
full reloads it triggered, and the notification it showed. -/
structure ActionResult where
  state : DashState
  reloads : Nat
  toast : Toast
deriving DecidableEq

/-- Lines 73-82: `handleDismissAlert`.  The catch block swallows the failure,
so the function is total: it always returns an `ActionResult` and never
propagates an exception. -/
def handleDismissAlert (s : DashState) (alertId : Int) (call : Except Unit Unit) :
    ActionResult :=
  match call with
  | Except.ok _ =>
      { state := { s with alerts := s.alerts.filter (fun alert => alert.Id != alertId) },
        reloads := 0,
        toast := Toast.success "Alert dismissed" }
  | Except.error _ =>
      { state := s,
        reloads := 0,
        toast := Toast.error "Failed to dismiss alert" }

/-- Lines 84-95: `handleCompleteTask`.  On success it filters the alerts
linked to the task and invokes `loadDashboardData()` once; on failure the
catch block only shows an error toast. -/
def handleCompleteTask (s : DashState) (taskId : Int) (call : Except Unit Unit) :
    ActionResult :=
  match call with
  | Except.ok _ =>
      { state := { s with alerts := s.alerts.filter (fun alert => alert.taskId != some taskId) },
        reloads := 1,
        toast := Toast.success "Task completed successfully" }
  | Except.error _ =>
      { state := s,
        reloads := 0,
        toast := Toast.error "Failed to complete task" }

/-- Every state-changing operation of the component, as seen from its state. -/
inductive Event where
  | load (res : Except LoadError FetchResults)
  | dismiss (alertId : Int) (call : Except Unit Unit)
  | complete (taskId : Int) (call : Except Unit Unit)

/-- The state transition performed by one event. -/
def step (s : DashState) (e : Event) : DashState :=
  match e with
  | Event.load res => loadDashboardData s res
  | Event.dismiss alertId call => (handleDismissAlert s alertId call).state
  | Event.complete taskId call => (handleCompleteTask s taskId call).state

/-! ### Helper lemmas -/

/-- The code's membership test on the two-element stage list agrees with the
spec's phrasing "stage is neither Won nor Lost". -/
lemma activeDeals_eq_filter (deals : List Deal) :
    activeDeals deals
      = deals.filter (fun d => decide (d.stage ≠ "Won" ∧ d.stage ≠ "Lost")) := by
  unfold activeDeals
  apply List.filter_congr
  intro d _
  by_cases h1 : d.stage = "Won" <;> by_cases h2 : d.stage = "Lost" <;>
    simp [h1, h2, List.contains]

lemma foldl_add_value (l : List Deal) (init : Int) :
    l.foldl (fun sum deal => sum + deal.value) init = init + (l.map Deal.value).sum := by
  induction l generalizing init with
  | nil => simp
  | cons d tl ih => simp [List.foldl_cons, ih, add_assoc]

lemma pipelineValue_eq_sum (deals : List Deal) :
    pipelineValue deals = ((activeDeals deals).map Deal.value).sum := by
  unfold pipelineValue
  rw [foldl_add_value]
  simp

/-! ### Claims -/

/-- Claim C1: for every list of deals, the loader's active-deal count equals
the number of deals whose stage is neither "Won" nor "Lost", and the pipeline
value equals the sum of the value fields of exactly those deals; on the deal
list [{value:100,stage:"Open"}, {value:50,stage:"Won"},
{value:30,stage:"Negotiation"}] the active count is 2 and the pipeline value
is 130. -/
theorem loader_active_deals_and_pipeline (s : DashState) (r : FetchResults) :
    ((loadDashboardData s (Except.ok r)).stats.totalDeals
        = r.deals.countP (fun d => decide (d.stage ≠ "Won" ∧ d.stage ≠ "Lost")))
    ∧ ((loadDashboardData s (Except.ok r)).stats.pipelineValue
        = ((r.deals.filter (fun d => decide (d.stage ≠ "Won" ∧ d.stage ≠ "Lost"))).map
            Deal.value).sum)
    ∧ ((loadDashboardData initialState (Except.ok
          ⟨[], [⟨100, "Open"⟩, ⟨50, "Won"⟩, ⟨30, "Negotiation"⟩], [], [], []⟩)).stats.totalDeals
        = 2)
    ∧ ((loadDashboardData initialState (Except.ok
          ⟨[], [⟨100, "Open"⟩, ⟨50, "Won"⟩, ⟨30, "Negotiation"⟩], [], [], []⟩)).stats.pipelineValue
        = 130) := by
  refine ⟨?_, ?_, by decide, by decide⟩
  · show (activeDeals r.deals).length = _
    rw [activeDeals_eq_filter, List.countP_eq_length_filter]
  · show pipelineValue r.deals = _
    rw [pipelineValue_eq_sum, activeDeals_eq_filter]

/-- Claim C6: for every list of tasks returned by the task collaborator, the
completed-task count computed by the loader equals the number of tasks whose
completed flag is true. -/
theorem loader_completed_task_count (s : DashState) (r : FetchResults) :
    (loadDashboardData s (Except.ok r)).stats.completedTasks
      = r.tasks.countP (fun t => t.completed) := by
  show completedTasks r.tasks = _
  unfold completedTasks
  rw [List.countP_eq_length_filter]

/-- Claim C8: every invocation of the loader sets the loading flag before the
reads are issued and clears it after the operation settles, on the success
path and on the failure path alike. -/
theorem loader_toggles_loading_flag (s : DashState) (res : Except LoadError FetchResults) :
    (loadStart s).isLoading = true
    ∧ loadDashboardData s res = loadSettle (loadStart s) res
    ∧ (loadDashboardData s res).isLoading = false := by
  refine ⟨rfl, rfl, ?_⟩
  cases res <;> rfl

/-- Claim C3: if any one of the five reads rejects, the loader leaves stats,
recent activities and alerts untouched and sets the single generic error
message, whichever read failed; the retry affordance is the loader itself,
which issues all five reads. -/
theorem loader_rejection_atomic (s : DashState) (e : LoadError) :
    ((loadDashboardData s (Except.error e)).error = "Failed to load dashboard data")
    ∧ ((loadDashboardData s (Except.error e)).stats = s.stats)
    ∧ ((loadDashboardData s (Except.error e)).recentActivities = s.recentActivities)
    ∧ ((loadDashboardData s (Except.error e)).alerts = s.alerts)
    ∧ onRetry = loadDashboardData
    ∧ (∀ svc : Service, svc ∈ dashboardReads) := by
  refine ⟨rfl, rfl, rfl, rfl, rfl, ?_⟩
  intro svc
  cases svc <;> simp [dashboardReads]

/-- Claim C4: on a successful service call, completing a task removes from
the local alerts exactly those entries whose taskId equals the given
identifier (keeping every other entry with its multiplicity, in order) and
triggers exactly one full reload with a success toast; on a failed call no
reload is triggered and the failure toast is shown instead of the success
one. -/
theorem completeTask_removes_task_alerts_and_reloads (s : DashState) (taskId : Int) :
    (List.Sublist (handleCompleteTask s taskId (Except.ok ())).state.alerts s.alerts)
    ∧ (∀ a : Alert,
        List.count a (handleCompleteTask s taskId (Except.ok ())).state.alerts
          = if a.taskId = some taskId then 0 else List.count a s.alerts)
    ∧ ((handleCompleteTask s taskId (Except.ok ())).reloads = 1)
    ∧ ((handleCompleteTask s taskId (Except.ok ())).toast
        = Toast.success "Task completed successfully")
    ∧ ((handleCompleteTask s taskId (Except.error ())).reloads = 0)
    ∧ ((handleCompleteTask s taskId (Except.error ())).toast
        = Toast.error "Failed to complete task") := by
  refine ⟨List.filter_sublist _, ?_, rfl, rfl, rfl, rfl⟩
  intro a
  show List.count a (s.alerts.filter (fun alert => alert.taskId != some taskId)) = _
  by_cases h : a.taskId = some taskId
  · rw [if_pos h]
    rw [List.count_eq_zero]
    intro hmem
    rcases List.mem_filter.mp hmem with ⟨_, hp⟩
    rw [h] at hp
    simp at hp
  · rw [if_neg h]
    exact List.count_filter (by simpa using h)

/-- Claim C5: on a successful service call, dismissing alert X removes
exactly the entries whose Id equals X from the local alert list (every other
entry is kept with its multiplicity, in the original order). -/
theorem dismissAlert_removes_exactly_matching (s : DashState) (alertId : Int) :
    (List.Sublist (handleDismissAlert s alertId (Except.ok ())).state.alerts s.alerts)
    ∧ (∀ a : Alert,
        List.count a (handleDismissAlert s alertId (Except.ok ())).state.alerts
          = if a.Id = alertId then 0 else List.count a s.alerts)
    ∧ ((handleDismissAlert s alertId (Except.ok ())).toast
        = Toast.success "Alert dismissed") := by
  refine ⟨List.filter_sublist _, ?_, rfl⟩
  intro a
  show List.count a (s.alerts.filter (fun alert => alert.Id != alertId)) = _
  by_cases h : a.Id = alertId
  · rw [if_pos h]
    rw [List.count_eq_zero]
    intro hmem
    rcases List.mem_filter.mp hmem with ⟨_, hp⟩
    rw [h] at hp
    simp at hp
  · rw [if_neg h]
    exact List.count_filter (by simpa using h)

/-- Claim C7: when the dismissal service call fails, the whole view state is
unchanged, the error toast is shown, no reload happens, and the handler
returns normally (it is a total function into `ActionResult`, mirroring the
catch block that swallows the exception). -/
theorem dismissAlert_failure_leaves_state (s : DashState) (alertId : Int) :
    ((handleDismissAlert s alertId (Except.error ())).state = s)
    ∧ ((handleDismissAlert s alertId (Except.error ())).toast
        = Toast.error "Failed to dismiss alert")
    ∧ ((handleDismissAlert s alertId (Except.error ())).reloads = 0) :=
  ⟨rfl, rfl, rfl⟩

/-- Claim C9: the dismissal action, on either outcome of the service call,
never changes stats, recent activities, the loading flag or the error state:
only the alerts list can change. -/
theorem dismissAlert_frame (s : DashState) (alertId : Int) (call : Except Unit Unit) :
    ((handleDismissAlert s alertId call).state.stats = s.stats)
    ∧ ((handleDismissAlert s alertId call).state.recentActivities = s.recentActivities)
    ∧ ((handleDismissAlert s alertId call).state.isLoading = s.isLoading)
    ∧ ((handleDismissAlert s alertId call).state.error = s.error) := by
  cases call <;> exact ⟨rfl, rfl, rfl, rfl⟩

lemma length_sortedActivities_le (l : List Activity) :
    (sortedActivities l).length ≤ 10 := by
  unfold sortedActivities
  rw [List.length_take]
  exact Nat.min_le_left _ _

lemma step_recent_le (s : DashState) (e : Event)
    (h : s.recentActivities.length ≤ 10) :
    (step s e).recentActivities.length ≤ 10 := by
  cases e with
  | load res =>
      cases res with
      | ok r => exact length_sortedActivities_le r.activities
      | error _ => exact h
  | dismiss alertId call => cases call <;> exact h
  | complete taskId call => cases call <;> exact h

lemma foldl_step_recent_le (events : List Event) (s : DashState)
    (h : s.recentActivities.length ≤ 10) :
    (events.foldl step s).recentActivities.length ≤ 10 := by
  induction events generalizing s with
  | nil => exact h
  | cons e tl ih => exact ih (step s e) (step_recent_le s e h)

/-- Claim C10: the recent-activities state holds at most ten entries after
every sequence of operations: it starts empty, the loader truncates to ten
after sorting, and the two alert actions never touch it. -/
theorem recent_activities_at_most_ten (events : List Event) :
    initialState.recentActivities = []
    ∧ (events.foldl step initialState).recentActivities.length ≤ 10 :=
  ⟨rfl, foldl_step_recent_le events initialState (by simp [initialState])⟩

/-- Claim C2: when the activities have pairwise-distinct timestamps, the
recent-activities list set by the loader is exactly the min(N,10) activities
with the greatest timestamps, in strictly descending timestamp order: its
length is min(N,10), it is strictly descending, it is a sub-permutation of
the fetched activities, and every kept activity has a strictly greater
timestamp than every fetched activity that was left out. -/
theorem loader_recent_is_top_ten (s : DashState) (r : FetchResults)
    (hdistinct : List.Pairwise (fun a b => a.timestamp ≠ b.timestamp) r.activities) :
    ((loadDashboardData s (Except.ok r)).recentActivities.length
        = min r.activities.length 10)
    ∧ (List.Pairwise (fun a b => b.timestamp < a.timestamp)
        (loadDashboardData s (Except.ok r)).recentActivities)
    ∧ (List.Subperm (loadDashboardData s (Except.ok r)).recentActivities r.activities)
    ∧ (∀ a ∈ (loadDashboardData s (Except.ok r)).recentActivities,
        ∀ b ∈ r.activities,
          b ∉ (loadDashboardData s (Except.ok r)).recentActivities →
            b.timestamp < a.timestamp) := by
  have hperm : List.Perm (List.insertionSort activityGE r.activities) r.activities :=
    List.perm_insertionSort activityGE r.activities
  have hsorted : List.Pairwise activityGE (List.insertionSort activityGE r.activities) :=
    List.sorted_insertionSort activityGE r.activities
  have hne : List.Pairwise (fun a b => a.timestamp ≠ b.timestamp)
      (List.insertionSort activityGE r.activities) :=
    hdistinct.perm hperm.symm (fun h => h.symm)
  have hstrict : List.Pairwise (fun a b => b.timestamp < a.timestamp)
      (List.insertionSort activityGE r.activities) :=
    (hsorted.and hne).imp (fun hab => lt_of_le_of_ne hab.1 hab.2.symm)
  have hrecent : (loadDashboardData s (Except.ok r)).recentActivities
      = (List.insertionSort activityGE r.activities).take 10 := rfl
  refine ⟨?_, ?_, ?_, ?_⟩
  · rw [hrecent, List.length_take, hperm.length_eq, Nat.min_comm]
  · rw [hrecent]
    exact hstrict.sublist (List.take_sublist 10 _)
  · rw [hrecent]
    exact ((List.take_sublist 10 _).subperm).trans hperm.subperm
  · intro a ha b hb hbn
    rw [hrecent] at ha hbn
    have hbsort : b ∈ List.insertionSort activityGE r.activities :=
      hperm.mem_iff.mpr hb
    have hbdrop : b ∈ (List.insertionSort activityGE r.activities).drop 10 := by
      rcases List.mem_append.mp
          (by rw [List.take_append_drop]; exact hbsort :
            b ∈ (List.insertionSort activityGE r.activities).take 10
              ++ (List.insertionSort activityGE r.activities).drop 10) with h | h
      · exact absurd h hbn
      · exact h
    have hsplit := hstrict
    rw [← List.take_append_drop 10 (List.insertionSort activityGE r.activities)] at hsplit
    exact (List.pairwise_append.mp hsplit).2.2 a ha b hbdrop

/-- A concrete fetch result with three activities at distinct timestamps. -/
def witnessResults : FetchResults :=
  ⟨[], [], [], [⟨1, 5⟩, ⟨2, 1⟩, ⟨3, 9⟩], []⟩

/-- Witness for claim C2 at the concrete input `witnessResults`. -/
theorem loader_recent_is_top_ten_example :
    (List.Pairwise (fun a b => a.timestamp ≠ b.timestamp) witnessResults.activities)
    ∧ (((loadDashboardData initialState (Except.ok witnessResults)).recentActivities.length
          = min witnessResults.activities.length 10)
      ∧ (List.Pairwise (fun a b => b.timestamp < a.timestamp)
          (loadDashboardData initialState (Except.ok witnessResults)).recentActivities)
      ∧ (List.Subperm
          (loadDashboardData initialState (Except.ok witnessResults)).recentActivities
          witnessResults.activities)
      ∧ (∀ a ∈ (loadDashboardData initialState (Except.ok witnessResults)).recentActivities,
          ∀ b ∈ witnessResults.activities,
            b ∉ (loadDashboardData initialState (Except.ok witnessResults)).recentActivities →
              b.timestamp < a.timestamp)) :=
  ⟨by decide, loader_recent_is_top_ten initialState witnessResults (by decide)⟩

end Dashboard
